import Mathlib

set_option maxHeartbeats 1000000

/-!
Shallow embedding of the graxybot relay server (src/server.js).

The server is an Express proxy with four endpoints: an OpenAI chat
pass-through, an ElevenLabs TTS proxy, a Gemini image-generation endpoint
with an OpenAI-backed moderation pre-filter, and a Gemini chat endpoint
with synthesized SSE streaming.  Request bodies and moderation verdicts
are arbitrary parsed JSON, modelled by `JsonVal` together with the
JavaScript truthiness and property-access conventions the handlers rely
on.  Upstream Gemini response bodies are modelled structurally.
-/

/-- A parsed JSON value, as produced by `JSON.parse` / `express.json()`. -/
inductive JsonVal where
  | null
  | boolV (b : Bool)
  | numV (n : Int)
  | strV (s : String)
  | arrV (elems : List JsonVal)
  | objV (fields : List (String × JsonVal))

/-- JavaScript truthiness of a JSON value (`!!v`). -/
def jsTruthy : JsonVal → Bool
  | .null => false
  | .boolV b => b
  | .numV n => n != 0
  | .strV s => s != ""
  | .arrV _ => true
  | .objV _ => true

/-- `typeof v === 'object'` for a JSON value: true for `null`, arrays and
objects, false for booleans, numbers and strings. -/
def isObjectType : JsonVal → Bool
  | .null => true
  | .arrV _ => true
  | .objV _ => true
  | _ => false

/-- JavaScript property access `v[k]`: `none` models `undefined`. -/
def getField : JsonVal → String → Option JsonVal
  | .objV fields, k => fields.lookup k
  | _, _ => none

/-- Truthiness of `v[k]` (`undefined` is falsy). -/
def fieldTruthy (v : JsonVal) (k : String) : Bool :=
  match getField v k with
  | some x => jsTruthy x
  | none => false

/-- Strict equality `v[k] === s` against a string literal. -/
def fieldIsStr (v : JsonVal) (k s : String) : Bool :=
  match getField v k with
  | some (.strV t) => t == s
  | _ => false

/-- JavaScript `v || dflt` on an optional value (`undefined` or falsy
falls back to the default). -/
def jsOrOpt (v : Option JsonVal) (dflt : JsonVal) : JsonVal :=
  match v with
  | some x => if jsTruthy x then x else dflt
  | none => dflt

/-- JavaScript `v[k] || dflt`. -/
def jsOrField (v : JsonVal) (k : String) (dflt : JsonVal) : JsonVal :=
  jsOrOpt (getField v k) dflt

/-- Whitespace as recognised by JavaScript `String.prototype.trim`
(the code points that occur in practice in JSON text). -/
def isJsSpace (c : Char) : Bool :=
  c == ' ' || c == '\t' || c == '\n' || c == '\r' ||
  c == '\x0b' || c == '\x0c' || c == ' '

/-- JavaScript `s.trim()`: remove leading and trailing whitespace. -/
def jsTrim (s : String) : String :=
  ⟨((s.data.dropWhile isJsSpace).reverse.dropWhile isJsSpace).reverse⟩

/-- `msg.role === r` (strict string comparison; `undefined` or a
non-string role is never equal). -/
def roleIs (msg : JsonVal) (r : String) : Bool :=
  match getField msg "role" with
  | some (.strV s) => s == r
  | _ => false

/-- The guard at the top of the `forEach` body in `formatMessagesForGemini`:
`!msg || typeof msg !== 'object' || typeof msg.content !== 'string'`
drops the turn; otherwise the raw content string is used. -/
def msgText (msg : JsonVal) : Option String :=
  if jsTruthy msg && isObjectType msg then
    match getField msg "content" with
    | some (.strV s) => some s
    | _ => none
  else none

/-- `const text = msg.content.trim(); if (!text) return;` — the trimmed
content of a turn that survives filtering, `none` if dropped. -/
def msgSurvivingText (msg : JsonVal) : Option String :=
  match msgText msg with
  | none => none
  | some s =>
    let t := jsTrim s
    if t = "" then none else some t

/-- One `(( text ))` part of a Gemini request. -/
structure GPartT where
  text : String
deriving DecidableEq

/-- One entry of the `contents` array sent to Gemini. -/
structure GContentMsg where
  role : String
  parts : List GPartT
deriving DecidableEq

/-- Return value of `formatMessagesForGemini`: the `contents` array and
the optional `systemInstruction` (whose parts we record as a list). -/
structure GeminiFormatted where
  contents : List GContentMsg
  systemInstruction : Option (List GPartT)
deriving DecidableEq

/-- The body of the `messages.forEach((msg) => ...)` loop in
`formatMessagesForGemini`, as a fold step. -/
def formatStep (st : GeminiFormatted) (msg : JsonVal) : GeminiFormatted :=
  match msgSurvivingText msg with
  | none => st
  | some text =>
    if roleIs msg "system" then
      match st.systemInstruction with
      | none => { st with systemInstruction := some [⟨text⟩] }
      | some ps => { st with systemInstruction := some (ps ++ [⟨text⟩]) }
    else
      let role := if roleIs msg "assistant" || roleIs msg "model" then "model" else "user"
      { st with contents := st.contents ++ [⟨role, [⟨text⟩]⟩] }

/-- `formatMessagesForGemini(messages)`.  The input is `none` when
`Array.isArray(messages)` is false, in which case the function returns
`(( contents: [] ))` with no `systemInstruction`. -/
def formatMessagesForGemini (messages : Option (List JsonVal)) : GeminiFormatted :=
  match messages with
  | none => ⟨[], none⟩
  | some msgs => msgs.foldl formatStep ⟨[], none⟩

/-- The trimmed text a turn contributes to the system instruction
(`none` if it is dropped or is not a system turn). -/
def sysEntry (m : JsonVal) : Option String :=
  match msgSurvivingText m with
  | some t => if roleIs m "system" then some t else none
  | none => none

/-- The system-instruction part texts, in original order. -/
def sysTexts (msgs : List JsonVal) : List String :=
  msgs.filterMap sysEntry

/-- The `contents` entry a turn contributes (`none` if dropped or a
system turn). -/
def contentEntry (m : JsonVal) : Option GContentMsg :=
  match msgSurvivingText m with
  | some t =>
    if roleIs m "system" then none
    else some ⟨if roleIs m "assistant" || roleIs m "model" then "model" else "user", [⟨t⟩]⟩
  | none => none

/-- The `contents` array a turn list produces, in original order. -/
def contentEntries (msgs : List JsonVal) : List GContentMsg :=
  msgs.filterMap contentEntry

/-- Extending an accumulated system instruction with further part texts,
matching how the loop initialises it on the first system turn and
appends on later ones. -/
def mergeSys (s : Option (List GPartT)) (ts : List String) : Option (List GPartT) :=
  match s with
  | none =>
    match ts with
    | [] => none
    | _ => some (ts.map fun t => ⟨t⟩)
  | some ps => some (ps ++ ts.map fun t => ⟨t⟩)

theorem mergeSys_append (s : Option (List GPartT)) (ts us : List String) :
    mergeSys (mergeSys s ts) us = mergeSys s (ts ++ us) := by
  cases s with
  | some ps =>
    cases us with
    | nil => simp [mergeSys]
    | cons u us => simp [mergeSys]
  | none =>
    cases ts with
    | nil => simp [mergeSys]
    | cons t ts =>
      cases us with
      | nil => simp [mergeSys]
      | cons u us => simp [mergeSys]

theorem formatStep_contents (st : GeminiFormatted) (m : JsonVal) :
    (formatStep st m).contents = st.contents ++ (contentEntry m).toList := by
  unfold formatStep contentEntry
  cases msgSurvivingText m with
  | none => simp
  | some t =>
    by_cases hr : roleIs m "system" = true
    · simp only [hr, if_true]
      cases st.systemInstruction <;> simp
    · simp only [Bool.not_eq_true] at hr
      simp [hr]

theorem formatStep_sys (st : GeminiFormatted) (m : JsonVal) :
    (formatStep st m).systemInstruction
      = mergeSys st.systemInstruction (sysEntry m).toList := by
  unfold formatStep sysEntry
  cases msgSurvivingText m with
  | none => cases st.systemInstruction <;> simp [mergeSys]
  | some t =>
    by_cases hr : roleIs m "system" = true
    · simp only [hr, if_true]
      cases st.systemInstruction <;> simp [mergeSys]
    · simp only [Bool.not_eq_true] at hr
      cases st.systemInstruction <;> simp [hr, mergeSys]

/-- Characterisation of the translator's fold: the `contents` grow by the
per-turn entries and the system instruction accumulates the per-turn
system texts. -/
theorem foldl_formatStep (msgs : List JsonVal) (st : GeminiFormatted) :
    msgs.foldl formatStep st
      = ⟨st.contents ++ contentEntries msgs,
         mergeSys st.systemInstruction (sysTexts msgs)⟩ := by
  induction msgs generalizing st with
  | nil =>
    cases st with
    | mk c s =>
      simp only [List.foldl_nil, contentEntries, sysTexts, List.filterMap_nil,
        List.append_nil]
      cases s <;> simp [mergeSys]
  | cons m ms ih =>
    rw [List.foldl_cons, ih]
    have hc := formatStep_contents st m
    have hs := formatStep_sys st m
    rw [hc, hs, mergeSys_append]
    have hce : contentEntries (m :: ms) = (contentEntry m).toList ++ contentEntries ms := by
      unfold contentEntries
      cases h : contentEntry m <;> simp [List.filterMap_cons, h]
    have hse : sysTexts (m :: ms) = (sysEntry m).toList ++ sysTexts ms := by
      unfold sysTexts
      cases h : sysEntry m <;> simp [List.filterMap_cons, h]
    rw [hce, hse, List.append_assoc]

theorem format_some (msgs : List JsonVal) :
    formatMessagesForGemini (some msgs) = msgs.foldl formatStep ⟨[], none⟩ := rfl

theorem format_contents (msgs : List JsonVal) :
    (formatMessagesForGemini (some msgs)).contents = contentEntries msgs := by
  rw [format_some, foldl_formatStep]
  simp

theorem format_sys (msgs : List JsonVal) :
    (formatMessagesForGemini (some msgs)).systemInstruction
      = mergeSys none (sysTexts msgs) := by
  rw [format_some, foldl_formatStep]

/-!
## Safety pre-filter (`evaluateAndOptimizeImagePrompt`)

The function issues one chat-completion call and inspects
`moderationResponse.data?.choices?.[0]?.message?.content`.  We model the
upstream environment by that content string (`none` = absent) together
with the outcome of `JSON.parse(content)` (`none` = parse throws).  The
three `throw new Error(...)` sites become `Except.error` values.
-/

/-- `evaluateAndOptimizeImagePrompt` after the moderation HTTP call:
`content` is the extracted message content, `parsed` the result of
`JSON.parse` on it.  Errors carry the thrown message. -/
def evaluateAndOptimizeImagePrompt (content : Option String)
    (parsed : Option JsonVal) : Except String JsonVal :=
  match content with
  | none => .error "Invalid moderation response"
  | some s =>
    if s = "" then .error "Invalid moderation response"
    else
      match parsed with
      | none => .error "Failed to parse moderation response JSON"
      | some p =>
        if !jsTruthy p || !isObjectType p || !fieldTruthy p "status" then
          .error "Moderation response missing required fields"
        else .ok p

/-!
## Gemini image endpoint (`POST /gemini/image`)
-/

/-- One element of the `parts` array the image handler sends upstream:
an inline reference-image part or the text (prompt) part. -/
inductive ReqPart where
  | inlinePart (data : JsonVal) (mimeType : JsonVal)
  | textPart (text : JsonVal)

/-- `inlineData` of an upstream Gemini response part. -/
structure InlineData where
  data : Option JsonVal
  mimeType : Option JsonVal

/-- One part of an upstream Gemini candidate's content. -/
structure GRespPart where
  text : Option JsonVal
  inlineData : Option InlineData

/-- `content` of an upstream Gemini candidate. -/
structure GRespContent where
  parts : Option (List GRespPart)

/-- One candidate of an upstream Gemini response. -/
structure GCandidate where
  content : Option GRespContent

/-- The parsed body (`geminiResponse.data`) of an upstream Gemini
response; `candidates` is `none` when the field is absent. -/
structure GeminiData where
  candidates : Option (List GCandidate)

/-- `candidates[0]?.content?.parts || []`. -/
def firstCandidateParts (d : GeminiData) : List GRespPart :=
  match (d.candidates.getD []).head? with
  | none => []
  | some c =>
    match c.content with
    | none => []
    | some ct => ct.parts.getD []

/-- The predicate of `responseParts.find((part) => part.inlineData && part.inlineData.data)`. -/
def partHasInline (p : GRespPart) : Bool :=
  match p.inlineData with
  | some idata =>
    match idata.data with
    | some v => jsTruthy v
    | none => false
  | none => false

/-- The `inlineData` of the first part satisfying `partHasInline`. -/
def firstInlineData (parts : List GRespPart) : Option InlineData :=
  parts.findSome? fun p =>
    match p.inlineData with
    | some idata =>
      match idata.data with
      | some v => if jsTruthy v then some idata else none
      | none => none
    | none => none

/-- How the image handler turns a successful upstream response into an
HTTP result: 502 with the raw upstream payload when no inline image part
exists, otherwise 200 with the first inline part's data and mime type. -/
inductive ImageHttpResult where
  | noImage (details : GeminiData)
  | image (img : JsonVal) (mimeType : JsonVal)

/-- The tail of the image handler, from `geminiResponse.data` on. -/
def interpretImageResponse (d : GeminiData) : ImageHttpResult :=
  match firstInlineData (firstCandidateParts d) with
  | none => .noImage d
  | some idata => .image (idata.data.getD .null) (jsOrOpt idata.mimeType (.strV "image/png"))

/-- Outcome of one `POST /gemini/image` request.  `serverError` is the
500 for a missing credential, `badRequest` the 400 for a missing prompt,
`unsafeReject` the 400 `(( error: 'unsafe_prompt', message ))` response,
and `upstream` records that the request was dispatched to the image
provider with the given parts, together with how its response was
interpreted.  Only `upstream` represents an upstream image call. -/
inductive ImageOutcome where
  | serverError (error : String)
  | badRequest (error : String)
  | unsafeReject (message : JsonVal)
  | upstream (parts : List ReqPart) (result : ImageHttpResult)

/-- Request body of `POST /gemini/image`: the raw `prompt` and
`referenceImage` fields (`none` = absent). -/
structure ImageReqBody where
  prompt : Option JsonVal
  referenceImage : Option JsonVal

/-- Building the upstream `parts` array: an inline part when
`referenceImage && referenceImage.data`, then the text part with the
final prompt. -/
def buildImageParts (refImage : Option JsonVal) (finalPrompt : JsonVal) : List ReqPart :=
  (match refImage with
   | some r =>
     if jsTruthy r && fieldTruthy r "data" then
       [ReqPart.inlinePart ((getField r "data").getD .null)
          (jsOrField r "mimeType" (.strV "image/png"))]
     else []
   | none => []) ++ [ReqPart.textPart finalPrompt]

/-- The `POST /gemini/image` handler.  `modContent`/`modParsed` model the
moderation upstream environment (see `evaluateAndOptimizeImagePrompt`),
`upstreamData` the image provider's successful response body. -/
def geminiImageHandler (geminiKey openaiKey : Option String)
    (modContent : Option String) (modParsed : Option JsonVal)
    (upstreamData : GeminiData) (body : ImageReqBody) : ImageOutcome :=
  match geminiKey with
  | none => .serverError "Server configuration error: Gemini API key is missing."
  | some _ =>
    let prompt :=
      match body.prompt with
      | some (.strV s) => jsTrim s
      | _ => ""
    if prompt = "" then .badRequest "No prompt provided for image generation."
    else
      let finalPrompt : Except JsonVal JsonVal :=
        match openaiKey with
        | none => .ok (.strV prompt)
        | some _ =>
          match evaluateAndOptimizeImagePrompt modContent modParsed with
          | .error _ => .ok (.strV prompt)
          | .ok verdict =>
            if fieldIsStr verdict "status" "safe" then
              .ok (jsOrField verdict "optimized_prompt" (.strV prompt))
            else
              .error (jsOrField verdict "response" (.strV "whoa, let's keep it PG."))
      match finalPrompt with
      | .error m => .unsafeReject m
      | .ok fp => .upstream (buildImageParts body.referenceImage fp) (interpretImageResponse upstreamData)

/-!
## Gemini chat endpoint (`POST /gemini/chat`)
-/

/-- `JSON.stringify` escaping for one character. -/
def jsonEscapeChar (c : Char) : String :=
  if c = '"' then "\\\""
  else if c = '\\' then "\\\\"
  else if c = '\n' then "\\n"
  else if c = '\r' then "\\r"
  else if c = '\t' then "\\t"
  else if c = '\x08' then "\\b"
  else if c = '\x0c' then "\\f"
  else if c.toNat < 32 then
    "\\u00"
      ++ String.singleton (Char.ofNat (if c.toNat / 16 < 10 then 48 + c.toNat / 16 else 87 + c.toNat / 16))
      ++ String.singleton (Char.ofNat (if c.toNat % 16 < 10 then 48 + c.toNat % 16 else 87 + c.toNat % 16))
  else String.singleton c

/-- `JSON.stringify` escaping of a string body. -/
def jsonEscape (s : String) : String :=
  String.join (s.data.map jsonEscapeChar)

mutual

/-- `JSON.stringify` of a JSON value. -/
def jsonStringify : JsonVal → String
  | .null => "null"
  | .boolV b => cond b "true" "false"
  | .numV n => toString n
  | .strV s => "\"" ++ jsonEscape s ++ "\""
  | .arrV xs => "[" ++ jsonStringifyArr xs ++ "]"
  | .objV fs => "\x7b" ++ jsonStringifyObj fs ++ "\x7d"

/-- Comma-separated stringification of array elements. -/
def jsonStringifyArr : List JsonVal → String
  | [] => ""
  | [x] => jsonStringify x
  | x :: xs => jsonStringify x ++ "," ++ jsonStringifyArr xs

/-- Comma-separated stringification of object fields. -/
def jsonStringifyObj : List (String × JsonVal) → String
  | [] => ""
  | [(k, v)] => "\"" ++ jsonEscape k ++ "\":" ++ jsonStringify v
  | (k, v) :: fs => "\"" ++ jsonEscape k ++ "\":" ++ jsonStringify v ++ "," ++ jsonStringifyObj fs

end

/-- The text the chat handler extracts from the first candidate:
`parts.map(part => typeof part.text === 'string' ? part.text : '').join('')`. -/
def candText (d : GeminiData) : String :=
  String.join ((firstCandidateParts d).map fun p =>
    match p.text with
    | some (.strV s) => s
    | _ => "")

/-- The synthesized SSE event payload
`(( choices: [ (( delta: (( content: text )) )) ] ))`. -/
def chatEventPayload (text : String) : JsonVal :=
  .objV [("choices", .arrV [.objV [("delta", .objV [("content", .strV text)])]])]

/-- The exact byte strings written to the client on the success path of
`POST /gemini/chat`: one `data:` event with the JSON payload, then the
literal `data: [DONE]` sentinel. -/
def geminiChatBody (d : GeminiData) : List String :=
  ["data: " ++ jsonStringify (chatEventPayload (candText d)) ++ "\n\n",
   "data: [DONE]\n\n"]

/-- The provider-native chat request the handler sends upstream. -/
structure GeminiChatReq where
  contents : List GContentMsg
  systemInstruction : Option (List GPartT)

/-- Outcome of one `POST /gemini/chat` request.  Only `stream`
represents an upstream chat call; it records the request payload and the
response body lines written to the client. -/
inductive ChatOutcome where
  | serverError (error : String)
  | badRequest (error : String)
  | stream (payload : GeminiChatReq) (body : List String)

/-- The `POST /gemini/chat` handler.  `messages` is the raw
`req.body.messages` JSON value (`none` = absent); `upstreamData` the
provider's successful response body. -/
def geminiChatHandler (key : Option String) (messages : Option JsonVal)
    (upstreamData : GeminiData) : ChatOutcome :=
  match key with
  | none => .serverError "Server configuration error: Gemini API key is missing."
  | some _ =>
    match messages with
    | some (.arrV (m :: ms)) =>
      let fmt := formatMessagesForGemini (some (m :: ms))
      match fmt.contents with
      | [] => .badRequest "No valid messages to send to Gemini."
      | _ => .stream ⟨fmt.contents, fmt.systemInstruction⟩ (geminiChatBody upstreamData)
    | _ => .badRequest "No messages provided for Gemini chat."

/-!
## OpenAI chat and ElevenLabs TTS endpoints (credential guards)
-/

/-- Outcome of one `POST /openai/chat` request up to dispatch.  Only
`forwarded` represents an upstream call; it records the model and
messages forwarded. -/
inductive ProxyOutcome where
  | serverError (error : String)
  | badRequest (error : String)
  | forwarded (model : JsonVal) (messages : JsonVal)

/-- The `POST /openai/chat` handler up to the upstream dispatch. -/
def openaiChatHandler (key : Option String) (model : Option JsonVal)
    (messages : Option JsonVal) : ProxyOutcome :=
  let theModel := jsOrOpt model (.strV "gpt-5-mini")
  match key with
  | none => .serverError "Server configuration error: OpenAI API key is missing."
  | some _ =>
    match messages with
    | some m =>
      if jsTruthy m then .forwarded theModel m
      else .badRequest "No messages provided in the request body for OpenAI chat."
    | none => .badRequest "No messages provided in the request body for OpenAI chat."

/-- Outcome of one `POST /elevenlabs-tts` request up to dispatch.  Only
`forwarded` represents an upstream call. -/
inductive TtsOutcome where
  | serverError (error : String)
  | badRequest (error : String)
  | forwarded (text : JsonVal) (voiceId : String)

/-- The `POST /elevenlabs-tts` handler up to the upstream dispatch. -/
def elevenLabsTtsHandler (key : Option String) (voiceId : Option String)
    (text : Option JsonVal) : TtsOutcome :=
  let voice :=
    match voiceId with
    | some v => if v = "" then "21m00Tcm4TlvDq8ikWAM" else v
    | none => "21m00Tcm4TlvDq8ikWAM"
  match key with
  | none => .serverError "Server configuration error: ElevenLabs API key is missing."
  | some _ =>
    match text with
    | some t =>
      if jsTruthy t then .forwarded t voice
      else .badRequest "No text provided for ElevenLabs TTS."
    | none => .badRequest "No text provided for ElevenLabs TTS."

/-!
## Helper lemmas and concrete fixtures
-/

/-- An upstream Gemini response body with no candidates. -/
def gd0 : GeminiData := ⟨none⟩

/-- A well-formed system turn. -/
def sysMsg (s : String) : JsonVal :=
  .objV [("role", .strV "system"), ("content", .strV s)]

/-- A well-formed user turn. -/
def userMsg (s : String) : JsonVal :=
  .objV [("role", .strV "user"), ("content", .strV s)]

/-- The concatenated text of the accumulated system-instruction parts. -/
def sysJoin (fmt : GeminiFormatted) : String :=
  String.join ((fmt.systemInstruction.getD []).map GPartT.text)

theorem imageHandler_skip_moderation (gk : String) (mc : Option String)
    (mp : Option JsonVal) (d : GeminiData) (ref : Option JsonVal) (p : String)
    (hp : jsTrim p ≠ "") :
    geminiImageHandler (some gk) none mc mp d ⟨some (.strV p), ref⟩
      = .upstream (buildImageParts ref (.strV (jsTrim p))) (interpretImageResponse d) := by
  unfold geminiImageHandler
  simp [hp]

theorem imageHandler_mod_error (gk okey : String) (mc : Option String)
    (mp : Option JsonVal) (d : GeminiData) (ref : Option JsonVal) (p : String) (e : String)
    (hp : jsTrim p ≠ "")
    (he : evaluateAndOptimizeImagePrompt mc mp = .error e) :
    geminiImageHandler (some gk) (some okey) mc mp d ⟨some (.strV p), ref⟩
      = .upstream (buildImageParts ref (.strV (jsTrim p))) (interpretImageResponse d) := by
  unfold geminiImageHandler
  simp [hp, he]

theorem imageHandler_mod_ok (gk okey : String) (mc : Option String)
    (mp : Option JsonVal) (d : GeminiData) (ref : Option JsonVal) (p : String) (v : JsonVal)
    (hp : jsTrim p ≠ "")
    (hv : evaluateAndOptimizeImagePrompt mc mp = .ok v) :
    geminiImageHandler (some gk) (some okey) mc mp d ⟨some (.strV p), ref⟩
      = (if fieldIsStr v "status" "safe" then
          .upstream (buildImageParts ref (jsOrField v "optimized_prompt" (.strV (jsTrim p))))
            (interpretImageResponse d)
         else
          .unsafeReject (jsOrField v "response" (.strV "whoa, let's keep it PG."))) := by
  unfold geminiImageHandler
  by_cases hs : fieldIsStr v "status" "safe" = true
  · simp [hp, hv, hs]
  · simp only [Bool.not_eq_true] at hs
    simp [hp, hv, hs]

/-- Each of the moderation hard-failure conditions makes
`evaluateAndOptimizeImagePrompt` throw. -/
theorem evaluate_unavailable (mc : Option String) (mp : Option JsonVal)
    (h : mc = none ∨ mc = some "" ∨ mp = none
        ∨ ∃ w, mp = some w ∧ fieldTruthy w "status" = false) :
    ∃ e, evaluateAndOptimizeImagePrompt mc mp = .error e := by
  unfold evaluateAndOptimizeImagePrompt
  rcases h with h | h | h | ⟨w, hw, hst⟩
  · subst h; exact ⟨"Invalid moderation response", rfl⟩
  · subst h; exact ⟨"Invalid moderation response", by simp⟩
  · subst h
    cases mc with
    | none => exact ⟨"Invalid moderation response", rfl⟩
    | some s =>
      by_cases hse : s = ""
      · exact ⟨"Invalid moderation response", by simp [hse]⟩
      · exact ⟨"Failed to parse moderation response JSON", by simp [hse]⟩
  · subst hw
    cases mc with
    | none => exact ⟨"Invalid moderation response", rfl⟩
    | some s =>
      by_cases hse : s = ""
      · exact ⟨"Invalid moderation response", by simp [hse]⟩
      · exact ⟨"Moderation response missing required fields", by simp [hse, hst]⟩

/-!
## Claim theorems
-/

/-- C1 (amended): whenever a turn list contains system turns that survive
filtering, the translator merges them into exactly one instruction block
(a single `systemInstruction`) whose parts are, in original order, the
*trimmed* contents of those system turns; the block's concatenated text is
the join of the trimmed contents.  Leading and trailing whitespace of each
turn — including paragraph breaks at turn boundaries — is removed by
`trim()`, not preserved. -/
theorem c1_system_merge (msgs : List JsonVal) (h : sysTexts msgs ≠ []) :
    (formatMessagesForGemini (some msgs)).systemInstruction
        = some ((sysTexts msgs).map fun t => (⟨t⟩ : GPartT))
    ∧ sysJoin (formatMessagesForGemini (some msgs))
        = String.join (sysTexts msgs) := by
  have hs := format_sys msgs
  have h1 : (formatMessagesForGemini (some msgs)).systemInstruction
      = some ((sysTexts msgs).map fun t => (⟨t⟩ : GPartT)) := by
    rw [hs]
    cases hts : sysTexts msgs with
    | nil => exact absurd hts h
    | cons t ts => simp [mergeSys]
  refine ⟨h1, ?_⟩
  unfold sysJoin
  rw [h1]
  simp only [Option.getD_some, List.map_map]
  have hid : (GPartT.text ∘ fun t => (⟨t⟩ : GPartT)) = id := rfl
  rw [hid, List.map_id]

/-- Witness for C1: two system turns with contents "a" and "b" produce a
single instruction block with parts "a", "b". -/
theorem c1_system_merge_witness :
    (formatMessagesForGemini (some [sysMsg "a", sysMsg "b"])).systemInstruction
        = some ((sysTexts [sysMsg "a", sysMsg "b"]).map fun t => (⟨t⟩ : GPartT))
    ∧ sysJoin (formatMessagesForGemini (some [sysMsg "a", sysMsg "b"]))
        = String.join (sysTexts [sysMsg "a", sysMsg "b"]) :=
  c1_system_merge [sysMsg "a", sysMsg "b"] (by decide)

/-- C1 counterexample: with system contents "a ", "b\n\n", "c" the merged
instruction's parts are the trimmed "a", "b", "c", whose concatenation is
"abc", while the contents concatenated in original order give
"a b\n\nc" — the interior space and the paragraph break at the turn
boundaries are lost (and no fixed part separator could restore both).
So the block's text does not equal the turns' content concatenated in
original order with paragraph breaks preserved. -/
theorem c1_counterexample :
    sysJoin (formatMessagesForGemini (some [sysMsg "a ", sysMsg "b\n\n", sysMsg "c"]))
        = "abc"
    ∧ ("a " ++ "b\n\n" ++ "c" : String) = "a b\n\nc"
    ∧ ("abc" : String) ≠ "a b\n\nc" :=
  ⟨by decide, by decide, by decide⟩

/-- C2 (amended): the translator drops a turn exactly when its content is
missing, not a string, or trims to the empty string; a surviving turn
whose role is unrecognized (not system, assistant or model) is *not*
dropped — it is kept and mapped to role "user". -/
theorem c2_drop_and_role (msgs : List JsonVal) (msg : JsonVal) :
    (msgSurvivingText msg = none →
      (formatMessagesForGemini (some (msgs ++ [msg]))).contents
        = (formatMessagesForGemini (some msgs)).contents)
    ∧ (∀ t, msgSurvivingText msg = some t →
        roleIs msg "system" = false →
        roleIs msg "assistant" = false →
        roleIs msg "model" = false →
        (formatMessagesForGemini (some (msgs ++ [msg]))).contents
          = (formatMessagesForGemini (some msgs)).contents ++ [⟨"user", [⟨t⟩]⟩]) := by
  constructor
  · intro hdrop
    rw [format_contents, format_contents]
    unfold contentEntries
    rw [List.filterMap_append]
    have : contentEntry msg = none := by unfold contentEntry; rw [hdrop]
    simp [List.filterMap_cons, this]
  · intro t ht hsys hasst hmodel
    rw [format_contents, format_contents]
    unfold contentEntries
    rw [List.filterMap_append]
    have : contentEntry msg = some ⟨"user", [⟨t⟩]⟩ := by
      unfold contentEntry
      rw [ht]
      simp [hsys, hasst, hmodel]
    simp [List.filterMap_cons, this]

/-- A turn with an unrecognized role and non-empty content. -/
def toolMsg : JsonVal := .objV [("role", .strV "tool"), ("content", .strV " hi ")]

/-- A turn whose content trims to the empty string. -/
def blankMsg : JsonVal := .objV [("role", .strV "user"), ("content", .strV "  ")]

/-- Witness for C2 (amended): a "tool"-role turn is kept as a "user" turn,
and a whitespace-only turn is dropped. -/
theorem c2_drop_and_role_witness :
    (formatMessagesForGemini (some ([] ++ [toolMsg]))).contents
        = (formatMessagesForGemini (some [])).contents ++ [⟨"user", [⟨"hi"⟩]⟩]
    ∧ (formatMessagesForGemini (some ([userMsg "x"] ++ [blankMsg]))).contents
        = (formatMessagesForGemini (some [userMsg "x"])).contents :=
  ⟨(c2_drop_and_role [] toolMsg).2 "hi" rfl rfl rfl rfl,
   (c2_drop_and_role [userMsg "x"] blankMsg).1 rfl⟩

/-- C2 counterexample: a turn with unrecognized role "tool" and content
"hi" is *not* dropped — it contributes an output entry (with role
"user"), so the translated output is non-empty. -/
theorem c2_counterexample :
    (formatMessagesForGemini
        (some [.objV [("role", .strV "tool"), ("content", .strV "hi")]])).contents
      = [⟨"user", [⟨"hi"⟩]⟩]
    ∧ [(⟨"user", [⟨"hi"⟩]⟩ : GContentMsg)] ≠ [] :=
  ⟨by decide, by decide⟩

/-- C8 (confirmed): if every turn of a non-empty list is either dropped by
filtering or a system turn, the translator produces zero output turns, and
the chat endpoint (credential present) rejects the request with the 400
validation error "No valid messages to send to Gemini." instead of
dispatching upstream. -/
theorem c8_only_system (msgs : List JsonVal)
    (hne : msgs ≠ [])
    (hsys : ∀ m ∈ msgs, contentEntry m = none) :
    (formatMessagesForGemini (some msgs)).contents = []
    ∧ ∀ (k : String) (d : GeminiData),
        geminiChatHandler (some k) (some (.arrV msgs)) d
          = .badRequest "No valid messages to send to Gemini." := by
  have hc : (formatMessagesForGemini (some msgs)).contents = [] := by
    rw [format_contents]
    unfold contentEntries
    exact List.filterMap_eq_nil_iff.mpr hsys
  refine ⟨hc, ?_⟩
  intro k d
  cases msgs with
  | nil => exact absurd rfl hne
  | cons m ms =>
    unfold geminiChatHandler
    simp only []
    rw [hc]

/-- Witness for C8: a single system turn yields the validation error. -/
theorem c8_only_system_witness :
    geminiChatHandler (some "k") (some (.arrV [sysMsg "hi"])) gd0
      = .badRequest "No valid messages to send to Gemini." :=
  (c8_only_system [sysMsg "hi"] (List.cons_ne_nil _ _)
      (by intro m hm; rw [List.mem_singleton] at hm; subst hm; rfl)).2 "k" gd0

/-- C9 (confirmed): with the provider credential absent, each of the four
endpoints returns the 500 configuration error naming that provider's
capability, and the outcome is not a forwarded/dispatched one — no
upstream call is made.  (`forwarded` / `upstream` / `stream` are the only
outcome constructors that represent an upstream call.) -/
theorem c9_missing_credentials (model messages text chatMsgs : Option JsonVal)
    (voice : Option String) (okey mc : Option String) (mp : Option JsonVal)
    (d : GeminiData) (body : ImageReqBody) :
    openaiChatHandler none model messages
        = .serverError "Server configuration error: OpenAI API key is missing."
    ∧ elevenLabsTtsHandler none voice text
        = .serverError "Server configuration error: ElevenLabs API key is missing."
    ∧ geminiImageHandler none okey mc mp d body
        = .serverError "Server configuration error: Gemini API key is missing."
    ∧ geminiChatHandler none chatMsgs d
        = .serverError "Server configuration error: Gemini API key is missing." :=
  ⟨rfl, rfl, rfl, rfl⟩

/-- C3 (amended): on an `unsafe` verdict the image pipeline rejects with
the 400 `unsafe_prompt` response whose message is the verdict's
`response` text, or the fixed fallback "whoa, let's keep it PG." when the
`response` field is absent or falsy; and the message is a function of the
verdict alone — changing the prompt does not change the outcome, so the
pipeline itself never injects the prompt into the message (it appears
only if the model's own refusal text contains it). -/
theorem c3_unsafe_reject (gk okey : String) (mc : Option String) (mp : Option JsonVal)
    (d : GeminiData) (ref : Option JsonVal) (p : String) (v : JsonVal)
    (hp : jsTrim p ≠ "")
    (hv : evaluateAndOptimizeImagePrompt mc mp = .ok v)
    (hs : getField v "status" = some (.strV "unsafe")) :
    geminiImageHandler (some gk) (some okey) mc mp d ⟨some (.strV p), ref⟩
        = .unsafeReject (jsOrField v "response" (.strV "whoa, let's keep it PG."))
    ∧ (getField v "response" = none →
        geminiImageHandler (some gk) (some okey) mc mp d ⟨some (.strV p), ref⟩
          = .unsafeReject (.strV "whoa, let's keep it PG."))
    ∧ (∀ q, jsTrim q ≠ "" →
        geminiImageHandler (some gk) (some okey) mc mp d ⟨some (.strV q), ref⟩
          = geminiImageHandler (some gk) (some okey) mc mp d ⟨some (.strV p), ref⟩) := by
  have hfs : fieldIsStr v "status" "safe" = false := by
    unfold fieldIsStr
    rw [hs]
    decide
  have h1 : geminiImageHandler (some gk) (some okey) mc mp d ⟨some (.strV p), ref⟩
      = .unsafeReject (jsOrField v "response" (.strV "whoa, let's keep it PG.")) := by
    rw [imageHandler_mod_ok gk okey mc mp d ref p v hp hv, if_neg (by simp [hfs])]
  refine ⟨h1, ?_, ?_⟩
  · intro hr
    rw [h1]
    unfold jsOrField jsOrOpt
    rw [hr]
  · intro q hq
    rw [h1, imageHandler_mod_ok gk okey mc mp d ref q v hq hv, if_neg (by simp [hfs])]

/-- An `unsafe` verdict with a refusal message. -/
def unsafeVerdict : JsonVal :=
  .objV [("status", .strV "unsafe"), ("response", .strV "nah fam, not drawing that")]

/-- Witness for C3: a concrete unsafe verdict produces the 400
`unsafe_prompt` rejection with the verdict's refusal message. -/
theorem c3_unsafe_reject_witness :
    geminiImageHandler (some "g") (some "o") (some "x") (some unsafeVerdict) gd0
        ⟨some (.strV "a cat"), none⟩
      = .unsafeReject (jsOrField unsafeVerdict "response" (.strV "whoa, let's keep it PG.")) :=
  (c3_unsafe_reject "g" "o" (some "x") (some unsafeVerdict) gd0 none "a cat" unsafeVerdict
      (by decide) rfl rfl).1

/-- An `unsafe` verdict whose refusal text repeats the prompt. -/
def echoVerdict : JsonVal :=
  .objV [("status", .strV "unsafe"), ("response", .strV "a cat")]

/-- C3 counterexample: with original prompt "a cat" and a verdict whose
model-provided refusal text is also "a cat", the client-visible message
equals (hence contains) the original prompt text — the code copies the
verdict's `response` verbatim and enforces no such never-leak guarantee. -/
theorem c3_counterexample :
    geminiImageHandler (some "g") (some "o") (some "m") (some echoVerdict) gd0
        ⟨some (.strV "a cat"), none⟩
      = .unsafeReject (.strV "a cat") := rfl

/-- C4 (confirmed): on a `safe` verdict the prompt sent to the image
provider is the verdict's optimized prompt when that is a non-empty
string, and falls back to the (trimmed) original prompt when the
optimized prompt is absent or empty; the text part sent upstream is
always the final prompt. -/
theorem c4_optimized_prompt (gk okey : String) (mc : Option String) (mp : Option JsonVal)
    (d : GeminiData) (ref : Option JsonVal) (p : String) (v : JsonVal)
    (hp : jsTrim p ≠ "")
    (hv : evaluateAndOptimizeImagePrompt mc mp = .ok v)
    (hs : getField v "status" = some (.strV "safe")) :
    (∀ s, s ≠ "" → getField v "optimized_prompt" = some (.strV s) →
      geminiImageHandler (some gk) (some okey) mc mp d ⟨some (.strV p), ref⟩
        = .upstream (buildImageParts ref (.strV s)) (interpretImageResponse d))
    ∧ ((getField v "optimized_prompt" = none ∨ getField v "optimized_prompt" = some (.strV "")) →
      geminiImageHandler (some gk) (some okey) mc mp d ⟨some (.strV p), ref⟩
        = .upstream (buildImageParts ref (.strV (jsTrim p))) (interpretImageResponse d))
    ∧ (∀ fp, (buildImageParts ref fp).getLast? = some (.textPart fp)) := by
  have hfs : fieldIsStr v "status" "safe" = true := by
    unfold fieldIsStr
    rw [hs]
    decide
  have hok := imageHandler_mod_ok gk okey mc mp d ref p v hp hv
  rw [if_pos hfs] at hok
  refine ⟨?_, ?_, ?_⟩
  · intro s hse hopt
    rw [hok]
    unfold jsOrField jsOrOpt
    rw [hopt]
    simp [jsTruthy, hse]
  · intro hopt
    rw [hok]
    unfold jsOrField jsOrOpt
    rcases hopt with hopt | hopt
    · rw [hopt]
    · rw [hopt]
      simp [jsTruthy]
  · intro fp
    unfold buildImageParts
    exact List.getLast?_concat _

/-- A `safe` verdict with a non-empty optimized prompt. -/
def safeVerdict : JsonVal :=
  .objV [("status", .strV "safe"),
         ("optimized_prompt", .strV "a cat in a spacesuit, detailed, photorealistic"),
         ("response", .strV "")]

/-- Witness for C4: the scenario from the spec — the image adapter
receives the optimized prompt, not the original "a cat astronaut". -/
theorem c4_optimized_prompt_witness :
    geminiImageHandler (some "g") (some "o") (some "x") (some safeVerdict) gd0
        ⟨some (.strV "a cat astronaut"), none⟩
      = .upstream (buildImageParts none (.strV "a cat in a spacesuit, detailed, photorealistic"))
          (interpretImageResponse gd0) :=
  (c4_optimized_prompt "g" "o" (some "x") (some safeVerdict) gd0 none "a cat astronaut"
      safeVerdict (by decide) rfl rfl).1
    "a cat in a spacesuit, detailed, photorealistic" (by decide) rfl

/-- C5 (confirmed): whenever moderation is unavailable — the moderation
credential is absent, the moderation response has missing or empty
content, the content is not parseable as JSON, or the parsed object has a
missing (or falsy) `status` field — the image pipeline proceeds to
generation with the original (trimmed) prompt unmodified; the outcome is
an upstream dispatch, never an error response caused by the moderation
failure. -/
theorem c5_failopen (gk : String) (okey mc : Option String) (mp : Option JsonVal)
    (d : GeminiData) (ref : Option JsonVal) (p : String)
    (hp : jsTrim p ≠ "")
    (hmod : okey = none ∨ mc = none ∨ mc = some "" ∨ mp = none
        ∨ ∃ w, mp = some w ∧ fieldTruthy w "status" = false) :
    geminiImageHandler (some gk) okey mc mp d ⟨some (.strV p), ref⟩
      = .upstream (buildImageParts ref (.strV (jsTrim p))) (interpretImageResponse d) := by
  rcases hmod with h | h
  · subst h
    exact imageHandler_skip_moderation gk mc mp d ref p hp
  · obtain ⟨e, he⟩ := evaluate_unavailable mc mp h
    cases okey with
    | none => exact imageHandler_skip_moderation gk mc mp d ref p hp
    | some ok => exact imageHandler_mod_error gk ok mc mp d ref p e hp he

/-- Witness for C5: no moderation credential — the original prompt goes
straight to the image provider. -/
theorem c5_failopen_witness :
    geminiImageHandler (some "g") none none none gd0 ⟨some (.strV "a dog"), none⟩
      = .upstream (buildImageParts none (.strV (jsTrim "a dog"))) (interpretImageResponse gd0) :=
  c5_failopen "g" none none none gd0 none "a dog" (by decide) (Or.inl rfl)

/-- C10 (amended): the moderation gate rejects with the 400
`unsafe_prompt` response exactly for verdicts that pass the pre-filter's
own validity check (truthy `status`) with a status other than the exact
string "safe"; a verdict whose `status` field is falsy (absent, empty
string, `false`, `0` or `null`) is instead a moderation hard failure that
the pipeline handles by fail-open pass-through of the original prompt,
not by a 400. -/
theorem c10_status_gate (gk okey : String) (mc : Option String) (mp : Option JsonVal)
    (d : GeminiData) (ref : Option JsonVal) (p : String)
    (hp : jsTrim p ≠ "") :
    (∀ v, evaluateAndOptimizeImagePrompt mc mp = .ok v →
      fieldIsStr v "status" "safe" = false →
      geminiImageHandler (some gk) (some okey) mc mp d ⟨some (.strV p), ref⟩
        = .unsafeReject (jsOrField v "response" (.strV "whoa, let's keep it PG.")))
    ∧ (∀ w, mp = some w → fieldTruthy w "status" = false →
      geminiImageHandler (some gk) (some okey) mc mp d ⟨some (.strV p), ref⟩
        = .upstream (buildImageParts ref (.strV (jsTrim p))) (interpretImageResponse d)) := by
  constructor
  · intro v hv hfs
    rw [imageHandler_mod_ok gk okey mc mp d ref p v hp hv, if_neg (by simp [hfs])]
  · intro w hw hst
    obtain ⟨e, he⟩ := evaluate_unavailable mc mp (Or.inr (Or.inr (Or.inr ⟨w, hw, hst⟩)))
    exact imageHandler_mod_error gk okey mc mp d ref p e hp he

/-- A verdict whose status is outside the safe/unsafe taxonomy. -/
def pendingVerdict : JsonVal := .objV [("status", .strV "pending")]

/-- A verdict whose status is the falsy empty string. -/
def emptyStatusVerdict : JsonVal := .objV [("status", .strV "")]

/-- Witness for C10 (amended): status "pending" (truthy, not "safe") is
rejected as `unsafe_prompt` with the fallback message; status "" (falsy)
falls open to generation with the original prompt. -/
theorem c10_status_gate_witness :
    geminiImageHandler (some "g") (some "o") (some "x") (some pendingVerdict) gd0
        ⟨some (.strV "a dog"), none⟩
      = .unsafeReject (jsOrField pendingVerdict "response" (.strV "whoa, let's keep it PG."))
    ∧ geminiImageHandler (some "g") (some "o") (some "x") (some emptyStatusVerdict) gd0
        ⟨some (.strV "a dog"), none⟩
      = .upstream (buildImageParts none (.strV (jsTrim "a dog"))) (interpretImageResponse gd0) :=
  ⟨(c10_status_gate "g" "o" (some "x") (some pendingVerdict) gd0 none "a dog" (by decide)).1
      pendingVerdict rfl (by decide),
   (c10_status_gate "g" "o" (some "x") (some emptyStatusVerdict) gd0 none "a dog" (by decide)).2
      emptyStatusVerdict rfl (by decide)⟩

/-- C10 counterexample: a verdict with status value "" — a status other
than "safe" — does *not* yield the 400 `unsafe_prompt` rejection the
claim requires: the request is dispatched to the image provider with the
original prompt (fail-open), because the falsy status makes the
pre-filter throw before the gate compares against "safe". -/
theorem c10_counterexample :
    geminiImageHandler (some "g") (some "o") (some "x") (some emptyStatusVerdict) gd0
        ⟨some (.strV "a hamster"), none⟩
      = .upstream [ReqPart.textPart (.strV "a hamster")] (.noImage gd0) := rfl

/-- The claim's description of the synthesized text: the concatenation,
in order, of the string `text` fields of the first candidate's parts
(parts without a string `text` contribute nothing). -/
def specFirstCandidateText (d : GeminiData) : String :=
  String.join ((firstCandidateParts d).filterMap fun pt =>
    match pt.text with
    | some (.strV s) => some s
    | _ => none)

theorem join_cons (s : String) (r : List String) :
    String.join (s :: r) = s ++ String.join r := by
  rw [String.join_eq, String.join_eq]
  cases s
  rfl

theorem str_empty_append (s : String) : "" ++ s = s := by
  cases s
  rfl

theorem candText_eq_spec (d : GeminiData) : candText d = specFirstCandidateText d := by
  unfold candText specFirstCandidateText
  induction firstCandidateParts d with
  | nil => rfl
  | cons pt l ih =>
    cases hpt : pt.text with
    | none =>
      rw [List.map_cons, join_cons, List.filterMap_cons]
      simp only [hpt]
      rw [ih]
      exact str_empty_append _
    | some v =>
      cases v with
      | strV s =>
        rw [List.map_cons, join_cons, List.filterMap_cons]
        simp only [hpt]
        rw [join_cons, ih]
      | null =>
        rw [List.map_cons, join_cons, List.filterMap_cons]
        simp only [hpt]
        rw [ih]
        exact str_empty_append _
      | boolV b =>
        rw [List.map_cons, join_cons, List.filterMap_cons]
        simp only [hpt]
        rw [ih]
        exact str_empty_append _
      | numV n =>
        rw [List.map_cons, join_cons, List.filterMap_cons]
        simp only [hpt]
        rw [ih]
        exact str_empty_append _
      | arrV xs =>
        rw [List.map_cons, join_cons, List.filterMap_cons]
        simp only [hpt]
        rw [ih]
        exact str_empty_append _
      | objV fs =>
        rw [List.map_cons, join_cons, List.filterMap_cons]
        simp only [hpt]
        rw [ih]
        exact str_empty_append _

/-- A line of the response body is an SSE data event: `data: ` prefix,
payload, blank-line terminator. -/
def isSseDataLine (line payload : String) : Prop :=
  line = "data: " ++ payload ++ "\n\n"

/-- C6 (confirmed): for every successful alternate-provider chat request
(credential present, non-empty message array that survives filtering),
the synthesized response body is exactly two SSE-framed lines: one data
event whose JSON payload is `(( choices: [ (( delta: (( content: text )) )) ] ))`
with `text` the in-order concatenation of the string `text` fields of the
first candidate's parts, followed by the literal `data: [DONE]` sentinel
line — the same `data: <payload>` framing a pass-through stream carries. -/
theorem c6_synthetic_stream (k : String) (msgs : List JsonVal) (d : GeminiData)
    (hm : msgs ≠ [])
    (hne : (formatMessagesForGemini (some msgs)).contents ≠ []) :
    ∃ payload,
      geminiChatHandler (some k) (some (.arrV msgs)) d
        = .stream payload
            ["data: " ++ jsonStringify (chatEventPayload (specFirstCandidateText d)) ++ "\n\n",
             "data: [DONE]\n\n"]
      ∧ isSseDataLine
          ("data: " ++ jsonStringify (chatEventPayload (specFirstCandidateText d)) ++ "\n\n")
          (jsonStringify (chatEventPayload (specFirstCandidateText d)))
      ∧ isSseDataLine "data: [DONE]\n\n" "[DONE]" := by
  cases msgs with
  | nil => exact absurd rfl hm
  | cons m ms =>
    refine ⟨⟨(formatMessagesForGemini (some (m :: ms))).contents,
             (formatMessagesForGemini (some (m :: ms))).systemInstruction⟩, ?_, rfl, rfl⟩
    unfold geminiChatHandler
    simp only []
    cases hc : (formatMessagesForGemini (some (m :: ms))).contents with
    | nil => exact absurd hc hne
    | cons c cs =>
      unfold geminiChatBody
      rw [candText_eq_spec]

/-- An upstream chat response whose first candidate has two text parts. -/
def gdHello : GeminiData :=
  ⟨some [⟨some ⟨some [⟨some (.strV "hel"), none⟩, ⟨some (.strV "lo"), none⟩]⟩⟩]⟩

/-- Witness for C6: a one-user-turn conversation and a two-part upstream
candidate produce the synthesized two-line SSE body. -/
theorem c6_synthetic_stream_witness :
    ∃ payload,
      geminiChatHandler (some "k") (some (.arrV [userMsg "hi"])) gdHello
        = .stream payload
            ["data: "
               ++ jsonStringify (chatEventPayload (specFirstCandidateText gdHello)) ++ "\n\n",
             "data: [DONE]\n\n"]
      ∧ isSseDataLine
          ("data: "
             ++ jsonStringify (chatEventPayload (specFirstCandidateText gdHello)) ++ "\n\n")
          (jsonStringify (chatEventPayload (specFirstCandidateText gdHello)))
      ∧ isSseDataLine "data: [DONE]\n\n" "[DONE]" :=
  c6_synthetic_stream "k" [userMsg "hi"] gdHello (List.cons_ne_nil _ _)
    (by rw [format_contents]; decide)

theorem findSomeFn_eq_none (pt : GRespPart) (h : partHasInline pt = false) :
    (match pt.inlineData with
     | some idata =>
       match idata.data with
       | some v => if jsTruthy v then some idata else none
       | none => none
     | none => none) = (none : Option InlineData) := by
  unfold partHasInline at h
  cases hid : pt.inlineData with
  | none => rfl
  | some idata =>
    have h2 : (match idata.data with
               | some v => jsTruthy v
               | none => false) = false := by rw [hid] at h; exact h
    show (match idata.data with
          | some v => if jsTruthy v then some idata else none
          | none => none) = none
    cases hdat : idata.data with
    | none => rfl
    | some v =>
      have h3 : jsTruthy v = false := by rw [hdat] at h2; exact h2
      simp [h3]

theorem firstInlineData_eq_none (parts : List GRespPart)
    (h : ∀ pt ∈ parts, partHasInline pt = false) :
    firstInlineData parts = none := by
  induction parts with
  | nil => rfl
  | cons pt l ih =>
    have hl : ∀ q ∈ l, partHasInline q = false := fun q hq => h q (List.mem_cons_of_mem pt hq)
    unfold firstInlineData
    rw [List.findSome?_cons]
    rw [findSomeFn_eq_none pt (h pt (List.mem_cons_self pt l))]
    exact ih hl

/-- C7 (confirmed): when a successful image-provider response contains no
part with truthy inline binary data, the handler produces the 502 result
carrying the raw upstream payload (`noImage d` holds `d` itself, returned
as `details` for diagnosis); otherwise it produces the 200 result with
the first inline part's data and its mime type (defaulted to image/png). -/
theorem c7_upstream_contract (d : GeminiData) :
    ((∀ pt ∈ firstCandidateParts d, partHasInline pt = false) →
      interpretImageResponse d = .noImage d)
    ∧ (∀ idata, firstInlineData (firstCandidateParts d) = some idata →
      interpretImageResponse d
        = .image (idata.data.getD .null) (jsOrOpt idata.mimeType (.strV "image/png"))) := by
  constructor
  · intro h
    unfold interpretImageResponse
    rw [firstInlineData_eq_none _ h]
  · intro idata hfind
    unfold interpretImageResponse
    rw [hfind]

/-- The inline image data of a successful upstream response. -/
def imgInline : InlineData := ⟨some (.strV "IMGDATA"), some (.strV "image/jpeg")⟩

/-- An upstream image response with a text part then an inline part. -/
def gdImg : GeminiData :=
  ⟨some [⟨some ⟨some [⟨some (.strV "here you go"), none⟩, ⟨none, some imgInline⟩]⟩⟩]⟩

/-- Witness for C7: a response with only text parts yields the 502
`noImage` result with the raw payload; a response with an inline part
yields its data and mime type. -/
theorem c7_upstream_contract_witness :
    interpretImageResponse gdHello = .noImage gdHello
    ∧ interpretImageResponse gdImg
        = .image (imgInline.data.getD .null) (jsOrOpt imgInline.mimeType (.strV "image/png")) :=
  ⟨(c7_upstream_contract gdHello).1
      (by
        intro pt hpt
        rw [show firstCandidateParts gdHello
              = [⟨some (.strV "hel"), none⟩, ⟨some (.strV "lo"), none⟩] from rfl] at hpt
        rcases List.mem_cons.mp hpt with h1 | hpt2
        · subst h1; rfl
        · rcases List.mem_cons.mp hpt2 with h1 | h1
          · subst h1; rfl
          · exact absurd h1 (List.not_mem_nil _)),
   (c7_upstream_contract gdImg).2 imgInline rfl⟩
